import Mathlib

/-!
Shallow embedding of the attendance-tracker client (`frontend/src/App.js`).

Modelling conventions:
* A record's `date` field is a timestamp in milliseconds; `toLocaleDateString`
  buckets a timestamp into its local calendar day, modelled by `localDay`
  (day number of the timestamp).  Distinct calendar days yield distinct
  locale strings which parse back to distinct `Date` values in the sort
  comparator, so calendar days are represented directly by their day number.
* A JavaScript object used as a date-keyed dictionary keeps its (non-index)
  string keys in insertion order; it is modelled by an association list in
  insertion order, with a fresh key appended at the end.
* JavaScript number arithmetic on the computed percentages is modelled by
  exact rational arithmetic (`ℚ`).
* Network calls are modelled by their outcome, an `Option` that is `some`
  payload on success and `none` on failure; the sequencing of `await`s and
  the `try`/`catch`/`finally` structure is made explicit as state passing.
-/

namespace AttendanceApp

/-- Milliseconds in one calendar day. -/
def msPerDay : Nat := 86400000

/-- Calendar day of a millisecond timestamp (model of `toLocaleDateString`). -/
def localDay (ts : Nat) : Nat := ts / msPerDay

/-- One attendance observation as returned by `GET /api/attendance`. -/
structure AttendanceRecord where
  id : Nat
  subject_id : Nat
  date : Nat
  status : String

/-- Reference data returned by `GET /api/subjects`. -/
structure Subject where
  id : Nat
  name : String
  code : String

/-- One row of `GET /api/attendance/summary`. -/
structure SummaryRow where
  subject_id : Nat
  subject_name : String
  subject_code : String
  total_classes : Nat
  classes_attended : Nat
  attendance_percentage : ℚ

/-- Authenticated user profile returned by `GET /api/me`. -/
structure User where
  name : String
  email : String
  enrollment_number : String
  branch : String
  year : Nat

/-! ## Attendance aggregator (`getTrendData`) -/

/-- One date bucket of `recordsByDate`: `{ present, total }`. -/
structure Bucket where
  present : Nat
  total : Nat

/-- Body of the `attendanceRecords.forEach` loop applied to one bucket:
`total += 1`, and `present += 1` exactly when the status is `'present'`. -/
def bump (b : Bucket) (status : String) : Bucket :=
  { present := b.present + (if status = "present" then 1 else 0)
    total := b.total + 1 }

/-- Key access on the date-keyed dictionary (`recordsByDate[date]`). -/
def lookupDay : List (Nat × Bucket) → Nat → Option Bucket
  | [], _ => none
  | (k, v) :: t, d => if k = d then some v else lookupDay t d

/-- One iteration of the `forEach` over the `recordsByDate` dictionary:
update the record's day bucket if it exists, otherwise append a fresh one. -/
def addRecord (m : List (Nat × Bucket)) (r : AttendanceRecord) : List (Nat × Bucket) :=
  let d := localDay r.date
  match lookupDay m d with
  | some _ => m.map (fun p => if p.1 = d then (p.1, bump p.2 r.status) else p)
  | none => m ++ [(d, bump ⟨0, 0⟩ r.status)]

/-- The `recordsByDate` dictionary after the whole `forEach`. -/
def recordsByDate (rs : List AttendanceRecord) : List (Nat × Bucket) :=
  rs.foldl addRecord []

/-- `Object.keys(recordsByDate).sort((a, b) => new Date(a) - new Date(b))`. -/
def trendDates (rs : List AttendanceRecord) : List Nat :=
  ((recordsByDate rs).map Prod.fst).insertionSort (· ≤ ·)

/-- The bucket the percentage map reads back for a date key. -/
def bucketAt (rs : List AttendanceRecord) (d : Nat) : Bucket :=
  (lookupDay (recordsByDate rs) d).getD ⟨0, 0⟩

/-- `total > 0 ? (present / total) * 100 : 0` for one date key. -/
def trendPercent (rs : List AttendanceRecord) (d : Nat) : ℚ :=
  let b := bucketAt rs d
  if b.total > 0 then ((b.present : ℚ) / (b.total : ℚ)) * 100 else 0

/-- The single dataset of the trend line chart. -/
structure TrendDataset where
  label : String
  data : List ℚ
  fill : Bool
  backgroundColor : String
  borderColor : String

/-- The value returned by `getTrendData`. -/
structure TrendChart where
  labels : List Nat
  datasets : List TrendDataset

/-- `getTrendData` (`App.js` lines 494-528). -/
def getTrendData (rs : List AttendanceRecord) : TrendChart :=
  { labels := trendDates rs
    datasets := [{ label := "Daily Attendance %"
                   data := (trendDates rs).map (trendPercent rs)
                   fill := false
                   backgroundColor := "rgba(75, 192, 192, 0.6)"
                   borderColor := "rgba(75, 192, 192, 1)" }] }

/-! ## Overall chart (`overallChartData`) -/

/-- The fixed `backgroundColor` palette of `overallChartData`. -/
def backgroundPalette : List String :=
  ["rgba(255, 99, 132, 0.6)", "rgba(54, 162, 235, 0.6)", "rgba(255, 206, 86, 0.6)",
   "rgba(75, 192, 192, 0.6)", "rgba(153, 102, 255, 0.6)"]

/-- The fixed `borderColor` palette of `overallChartData`. -/
def borderPalette : List String :=
  ["rgba(255, 99, 132, 1)", "rgba(54, 162, 235, 1)", "rgba(255, 206, 86, 1)",
   "rgba(75, 192, 192, 1)", "rgba(153, 102, 255, 1)"]

/-- The single dataset of the overall pie/bar chart. -/
structure OverallDataset where
  label : String
  data : List ℚ
  backgroundColor : List String
  borderColor : List String
  borderWidth : Nat

/-- The `overallChartData` object. -/
structure OverallChart where
  labels : List String
  datasets : List OverallDataset

/-- `overallChartData` (`App.js` lines 468-491): labels and percentages taken
from the summary rows in the order they arrived, fixed colour palettes. -/
def overallChartData (summary : List SummaryRow) : OverallChart :=
  { labels := summary.map (·.subject_name)
    datasets := [{ label := "Attendance Percentage"
                   data := summary.map (·.attendance_percentage)
                   backgroundColor := backgroundPalette
                   borderColor := borderPalette
                   borderWidth := 1 }] }

/-- Colour applied to row `i` of the first dataset: the dataset's colour list
used as a palette cycled over the row index. -/
def appliedColor (c : OverallChart) (i : Nat) : Option String :=
  c.datasets.head?.bind fun ds => ds.backgroundColor.get? (i % ds.backgroundColor.length)

/-! ## Details table (`Dashboard`, details tab) -/

/-- Subject label of one details row:
`subjects.find(s => s.id === record.subject_id) || { name: 'Unknown' }`. -/
def detailSubjectLabel (subjects : List Subject) (r : AttendanceRecord) : String :=
  match subjects.find? (fun s => s.id == r.subject_id) with
  | some s => s.name
  | none => "Unknown"

/-- Status label of one details row:
`record.status === 'present' ? "Present" : "Absent"`. -/
def detailStatusLabel (r : AttendanceRecord) : String :=
  if r.status = "present" then "Present" else "Absent"

/-- The rendered details rows: one `(day, subject label, status label)` row per
record, in record order. -/
def detailRows (subjects : List Subject) (records : List AttendanceRecord) :
    List (Nat × String × String) :=
  records.map (fun r => (localDay r.date, detailSubjectLabel subjects r, detailStatusLabel r))

/-! ## Session store (`useAuth`) -/

/-- The session state held by `useAuth` plus the persisted token. -/
structure AuthState where
  isAuthenticated : Bool
  user : Option User
  loading : Bool
  token : Option String

/-- `fetchUser`: on success stores the user and authenticates; on failure
clears authentication state and user; either way clears `loading`. -/
def fetchUser (st : AuthState) (meResp : Option User) : AuthState :=
  match meResp with
  | some u => { st with user := some u, isAuthenticated := true, loading := false }
  | none => { st with isAuthenticated := false, user := none, loading := false }

/-- `login`: on login failure returns `false` with the state unchanged; on
success persists the token, marks the session authenticated, runs `fetchUser`
(whose failure is swallowed internally), and returns `true`. -/
def login (st : AuthState) (loginResp : Option String) (meResp : Option User) :
    Bool × AuthState :=
  match loginResp with
  | none => (false, st)
  | some tok => (true, fetchUser { st with token := some tok, isAuthenticated := true } meResp)

/-- The `useState` initial values of `useAuth`, with the persisted token. -/
def initialAuthState (tok : Option String) : AuthState :=
  { isAuthenticated := false, user := none, loading := true, token := tok }

/-- Result of the startup `useEffect`: whether a network call was issued, the
state while the startup fetch (if any) is pending, and the resolved state. -/
structure StartupResult where
  networkCalled : Bool
  preResolve : AuthState
  final : AuthState

/-- The startup `useEffect` of `useAuth`: with a persisted token it runs
`fetchUser`; without one it only clears `loading`. -/
def startupSession (tok : Option String) (meResp : Option User) : StartupResult :=
  let st0 := initialAuthState tok
  match tok with
  | none => { networkCalled := false, preResolve := st0, final := { st0 with loading := false } }
  | some _ => { networkCalled := true, preResolve := st0, final := fetchUser st0 meResp }

/-! ## Route guard (`ProtectedRoute`) -/

/-- What `ProtectedRoute` renders. -/
inductive Rendered
  | loadingView
  | wrappedChildren
  | nothing

/-- The `useEffect` of `ProtectedRoute`: `navigate("/login")` is called exactly
when `!loading && !isAuthenticated`. -/
def protectedRouteRedirects (loading isAuthenticated : Bool) : Bool :=
  !loading && !isAuthenticated

/-- The render of `ProtectedRoute`: the loading view while loading, otherwise
the wrapped children when authenticated and nothing when not. -/
def protectedRouteRender (loading isAuthenticated : Bool) : Rendered :=
  if loading then .loadingView
  else if isAuthenticated then .wrappedChildren
  else .nothing

/-! ## Dashboard data fetching (`fetchData`) -/

/-- Outcomes of the three dashboard fetches; `none` is a failed request. -/
structure DashEnv where
  summaryResp : Option (List SummaryRow)
  recordsResp : Option (List AttendanceRecord)
  subjectsResp : Option (List Subject)

/-- Dashboard state plus, for each fetch, whether it was ever issued. -/
structure DashState where
  attendanceSummary : List SummaryRow
  attendanceRecords : List AttendanceRecord
  subjects : List Subject
  loading : Bool
  summaryIssued : Bool
  recordsIssued : Bool
  subjectsIssued : Bool

/-- The `useState` initial values of `Dashboard`. -/
def initialDashState : DashState :=
  { attendanceSummary := [], attendanceRecords := [], subjects := []
    loading := true, summaryIssued := false, recordsIssued := false, subjectsIssued := false }

/-- `fetchData` (`App.js` lines 443-465): the three requests are awaited one
after another inside a single `try` block, so a failure skips the remaining
requests and jumps to the `catch`; the `finally` clears `loading`. -/
def fetchData (env : DashEnv) : DashState :=
  let s0 := { initialDashState with summaryIssued := true }
  match env.summaryResp with
  | none => { s0 with loading := false }
  | some sm =>
      let s1 := { s0 with attendanceSummary := sm, recordsIssued := true }
      match env.recordsResp with
      | none => { s1 with loading := false }
      | some rc =>
          let s2 := { s1 with attendanceRecords := rc, subjectsIssued := true }
          match env.subjectsResp with
          | none => { s2 with loading := false }
          | some sb => { s2 with subjects := sb, loading := false }

/-- Sample inputs used to instantiate the theorems below. -/
def samplePresentRecord : AttendanceRecord := ⟨1, 1, 0, "present"⟩

/-- A record whose status is not the string `present`. -/
def sampleAbsentRecord : AttendanceRecord := ⟨1, 2, 0, "absent"⟩

/-- A record whose `subject_id` matches no sample subject. -/
def sampleUnknownRecord : AttendanceRecord := ⟨7, 9, 0, "present"⟩

/-- A one-subject reference list. -/
def sampleSubjects : List Subject := [⟨5, "Mathematics", "MTH101"⟩]

/-! ## Dictionary lemmas for `recordsByDate` -/

theorem lookup_update (m : List (Nat × Bucket)) (d : Nat) (s : String) :
    lookupDay (m.map (fun p => if p.1 = d then (p.1, bump p.2 s) else p)) d
      = (lookupDay m d).map (fun b => bump b s) := by
  induction m with
  | nil => rfl
  | cons p m ih =>
      obtain ⟨k, v⟩ := p
      simp only [List.map_cons]
      by_cases h : k = d
      · rw [if_pos (show (k, v).1 = d from h)]
        subst h
        simp [lookupDay, ih]
      · rw [if_neg (show ¬(k, v).1 = d from h)]
        simp [lookupDay, h, ih]

theorem not_mem_keys_of_lookup_none {m : List (Nat × Bucket)} {d : Nat}
    (h : lookupDay m d = none) : d ∉ m.map Prod.fst := by
  induction m with
  | nil => simp
  | cons p m ih =>
      obtain ⟨k, v⟩ := p
      by_cases hk : k = d
      · simp [lookupDay, hk] at h
      · simp only [lookupDay, if_neg hk] at h
        simp only [List.map_cons, List.mem_cons]
        rintro (h1 | h2)
        · exact hk h1.symm
        · exact ih h h2

theorem exists_lookup_of_mem_keys {m : List (Nat × Bucket)} {d : Nat}
    (h : d ∈ m.map Prod.fst) : ∃ b, lookupDay m d = some b := by
  induction m with
  | nil => simp at h
  | cons p m ih =>
      obtain ⟨k, v⟩ := p
      by_cases hk : k = d
      · exact ⟨v, by simp [lookupDay, hk]⟩
      · have h' : d ∈ m.map Prod.fst := by
          simp only [List.map_cons, List.mem_cons] at h
          rcases h with h1 | h2
          · exact absurd h1.symm hk
          · exact h2
        obtain ⟨b, hb⟩ := ih h'
        exact ⟨b, by simp [lookupDay, hk, hb]⟩

theorem mem_of_lookup_some {m : List (Nat × Bucket)} {d : Nat} {b : Bucket}
    (h : lookupDay m d = some b) : (d, b) ∈ m := by
  induction m with
  | nil => simp [lookupDay] at h
  | cons p m ih =>
      obtain ⟨k, v⟩ := p
      by_cases hk : k = d
      · simp only [lookupDay, if_pos hk, Option.some.injEq] at h
        subst hk
        subst h
        exact List.mem_cons_self _ _
      · simp only [lookupDay, if_neg hk] at h
        exact List.mem_cons_of_mem _ (ih h)

theorem lookup_append_single {m : List (Nat × Bucket)} {d : Nat} (b : Bucket)
    (h : lookupDay m d = none) : lookupDay (m ++ [(d, b)]) d = some b := by
  induction m with
  | nil => simp [lookupDay]
  | cons p m ih =>
      obtain ⟨k, v⟩ := p
      by_cases hk : k = d
      · simp [lookupDay, hk] at h
      · simp only [lookupDay, if_neg hk] at h
        simpa [List.cons_append, lookupDay, if_neg hk] using ih h

theorem keys_update (m : List (Nat × Bucket)) (d : Nat) (s : String) :
    (m.map (fun p => if p.1 = d then (p.1, bump p.2 s) else p)).map Prod.fst
      = m.map Prod.fst := by
  induction m with
  | nil => rfl
  | cons p m ih =>
      by_cases h : p.1 = d <;> simp [h, ih]

theorem nodup_keys_addRecord {m : List (Nat × Bucket)} (r : AttendanceRecord)
    (h : (m.map Prod.fst).Nodup) : ((addRecord m r).map Prod.fst).Nodup := by
  cases hl : lookupDay m (localDay r.date) with
  | none =>
      simp only [addRecord, hl]
      rw [List.map_append]
      simp [List.nodup_append, h, not_mem_keys_of_lookup_none hl]
  | some b =>
      simp only [addRecord, hl]
      rw [keys_update]
      exact h

theorem foldl_addRecord_inv (P : List (Nat × Bucket) → Prop)
    (step : ∀ m r, P m → P (addRecord m r)) :
    ∀ (rs : List AttendanceRecord) (m : List (Nat × Bucket)), P m → P (rs.foldl addRecord m) := by
  intro rs
  induction rs with
  | nil => intro m h; exact h
  | cons r rs ih => intro m h; exact ih (addRecord m r) (step m r h)

theorem nodup_keys_recordsByDate (rs : List AttendanceRecord) :
    ((recordsByDate rs).map Prod.fst).Nodup :=
  foldl_addRecord_inv (fun m => (m.map Prod.fst).Nodup)
    (fun _ r h => nodup_keys_addRecord r h) rs [] (by simp)

theorem bucket_le_addRecord {m : List (Nat × Bucket)} (r : AttendanceRecord)
    (h : ∀ p ∈ m, p.2.present ≤ p.2.total) :
    ∀ p ∈ addRecord m r, p.2.present ≤ p.2.total := by
  intro p hp
  cases hl : lookupDay m (localDay r.date) with
  | none =>
      simp only [addRecord, hl] at hp
      rcases List.mem_append.mp hp with h1 | h2
      · exact h p h1
      · have hpe : p = (localDay r.date, bump ⟨0, 0⟩ r.status) := by simpa using h2
        subst hpe
        by_cases hs : r.status = "present" <;> simp [bump, hs]
  | some b =>
      simp only [addRecord, hl] at hp
      obtain ⟨q, hq, hfq⟩ := List.mem_map.mp hp
      by_cases hqd : q.1 = localDay r.date
      · rw [if_pos hqd] at hfq
        have hle := h q hq
        rw [← hfq]
        by_cases hs : r.status = "present" <;> simp [bump, hs] <;> omega
      · rw [if_neg hqd] at hfq
        rw [← hfq]
        exact h q hq

theorem bucket_le_recordsByDate (rs : List AttendanceRecord) :
    ∀ p ∈ recordsByDate rs, p.2.present ≤ p.2.total :=
  foldl_addRecord_inv (fun m => ∀ p ∈ m, p.2.present ≤ p.2.total)
    (fun _ r h => bucket_le_addRecord r h) rs [] (by simp)

/-! ## Claim theorems -/

/-- C1: For every collection of attendance records, the trend series produced
by `getTrendData` has output dates that are strictly ascending and unique:
the label sequence contains no duplicate calendar dates and each date is
strictly earlier than the next. -/
theorem C1_trend_labels_strictly_ascending (rs : List AttendanceRecord) :
    List.Pairwise (· < ·) (getTrendData rs).labels := by
  show List.Pairwise (· < ·) (trendDates rs)
  have hsorted : List.Sorted (· ≤ ·) (trendDates rs) :=
    List.sorted_insertionSort (· ≤ ·) ((recordsByDate rs).map Prod.fst)
  have hnd : (trendDates rs).Nodup :=
    (List.perm_insertionSort (· ≤ ·) ((recordsByDate rs).map Prod.fst)).nodup_iff.mpr
      (nodup_keys_recordsByDate rs)
  exact (hsorted.and hnd).imp fun h => lt_of_le_of_ne h.1 h.2

/-- C2: For every collection of attendance records and every date bucket in
the trend series of `getTrendData`, the computed percentage lies in [0, 100],
equals exactly 100 × present/total when the bucket's total is positive, and
equals 0 when the bucket's total is 0. -/
theorem C2_trend_percent_bounds (rs : List AttendanceRecord) (d : Nat)
    (hd : d ∈ (getTrendData rs).labels) :
    0 ≤ trendPercent rs d ∧ trendPercent rs d ≤ 100 ∧
    (0 < (bucketAt rs d).total →
      trendPercent rs d
        = 100 * ((bucketAt rs d).present : ℚ) / ((bucketAt rs d).total : ℚ)) ∧
    ((bucketAt rs d).total = 0 → trendPercent rs d = 0) := by
  have hd' : d ∈ (recordsByDate rs).map Prod.fst :=
    (List.mem_insertionSort (· ≤ ·)).mp hd
  obtain ⟨b, hb⟩ := exists_lookup_of_mem_keys hd'
  have hmem : (d, b) ∈ recordsByDate rs := mem_of_lookup_some hb
  have hple : b.present ≤ b.total := bucket_le_recordsByDate rs _ hmem
  have hbat : bucketAt rs d = b := by simp [bucketAt, hb]
  rcases Nat.eq_zero_or_pos b.total with h0 | hpos
  · have hp : trendPercent rs d = 0 := by
      simp [trendPercent, hbat, h0]
    refine ⟨by rw [hp], by rw [hp]; norm_num, ?_, fun _ => hp⟩
    intro hpos'
    rw [hbat, h0] at hpos'
    exact absurd hpos' (lt_irrefl 0)
  · have htq : (0 : ℚ) < (b.total : ℚ) := by exact_mod_cast hpos
    have hpq : ((b.present : ℚ)) ≤ (b.total : ℚ) := by exact_mod_cast hple
    have hp : trendPercent rs d = ((b.present : ℚ) / (b.total : ℚ)) * 100 := by
      simp [trendPercent, hbat, hpos]
    refine ⟨?_, ?_, ?_, ?_⟩
    · rw [hp]
      positivity
    · rw [hp]
      have h1 : (b.present : ℚ) / (b.total : ℚ) ≤ 1 := (div_le_one htq).mpr hpq
      calc ((b.present : ℚ) / (b.total : ℚ)) * 100 ≤ 1 * 100 :=
            mul_le_mul_of_nonneg_right h1 (by norm_num)
        _ = 100 := by norm_num
    · intro _
      rw [hp, hbat]
      ring
    · intro h0'
      rw [hbat] at h0'
      omega

/-- Witness for C2 at a concrete one-record collection. -/
theorem C2_witness :
    (0 ∈ (getTrendData [samplePresentRecord]).labels) ∧
    (0 ≤ trendPercent [samplePresentRecord] 0 ∧
      trendPercent [samplePresentRecord] 0 ≤ 100 ∧
      (0 < (bucketAt [samplePresentRecord] 0).total →
        trendPercent [samplePresentRecord] 0
          = 100 * ((bucketAt [samplePresentRecord] 0).present : ℚ)
              / ((bucketAt [samplePresentRecord] 0).total : ℚ)) ∧
      ((bucketAt [samplePresentRecord] 0).total = 0 →
        trendPercent [samplePresentRecord] 0 = 0)) :=
  ⟨by decide, C2_trend_percent_bounds [samplePresentRecord] 0 (by decide)⟩

/-- C3: An empty attendance records collection produces an empty trend series:
no date labels and an empty value sequence in the single dataset. -/
theorem C3_empty_records_empty_trend :
    (getTrendData []).labels = [] ∧
    ((getTrendData []).datasets.map (fun ds => ds.data)) = [[]] :=
  ⟨rfl, rfl⟩

/-- C4 counterexample: with the summary request failing and the other two
responses available, `fetchData` never issues the records and subjects
requests, yet clears `loading` — refuting that the three fetches are issued
independently and that `loading` is cleared only after all three have
completed or failed. -/
theorem C4_counterexample :
    (fetchData ⟨none, some [], some []⟩).recordsIssued = false ∧
    (fetchData ⟨none, some [], some []⟩).subjectsIssued = false ∧
    (fetchData ⟨none, some [], some []⟩).loading = false :=
  ⟨rfl, rfl, rfl⟩

/-- C4 (amended): the dashboard's three fetches are issued sequentially —
the records request only after the summary request succeeds, the subjects
request only after the records request succeeds — and the loading flag is
cleared when this sequence ends, after the last request completes or the
first failure. -/
theorem C4_sequential_fetches_clear_loading (env : DashEnv) :
    (fetchData env).summaryIssued = true ∧
    (fetchData env).recordsIssued = env.summaryResp.isSome ∧
    (fetchData env).subjectsIssued = (env.summaryResp.isSome && env.recordsResp.isSome) ∧
    (fetchData env).loading = false := by
  obtain ⟨s, r, b⟩ := env
  cases s <;> cases r <;> cases b <;> exact ⟨rfl, rfl, rfl, rfl⟩

/-- C5: A successful login whose immediate `fetchUser` fails reports success
(`true`) while leaving the session fail-closed: `isAuthenticated = false` and
no user. -/
theorem C5_login_then_fetch_failure_fail_closed (st : AuthState) (tok : String) :
    (login st (some tok) none).1 = true ∧
    (login st (some tok) none).2.isAuthenticated = false ∧
    (login st (some tok) none).2.user = none :=
  ⟨rfl, rfl, rfl⟩

/-- C6: While the session is loading, `ProtectedRoute` never redirects —
whatever `isAuthenticated` is — and renders the neutral loading view; once
loading completes it redirects exactly when unauthenticated and renders the
wrapped view when authenticated. -/
theorem C6_route_guard (a : Bool) :
    protectedRouteRedirects true a = false ∧
    protectedRouteRender true a = Rendered.loadingView ∧
    protectedRouteRedirects false false = true ∧
    protectedRouteRedirects false true = false ∧
    protectedRouteRender false true = Rendered.wrappedChildren := by
  cases a <;> exact ⟨rfl, rfl, rfl, rfl, rfl⟩

/-- C7: At startup, a session with no persisted token resolves with
`loading = false` and `isAuthenticated = false` without any network call;
with a persisted token, `fetchUser` is issued and `loading` stays `true`
until that fetch resolves either way, after which `loading` is `false`. -/
theorem C7_startup_session (me : Option User) (t : String) :
    ((startupSession none me).networkCalled = false ∧
     (startupSession none me).final.loading = false ∧
     (startupSession none me).final.isAuthenticated = false) ∧
    ((startupSession (some t) me).networkCalled = true ∧
     (startupSession (some t) me).preResolve.loading = true ∧
     (startupSession (some t) me).final.loading = false) := by
  refine ⟨⟨rfl, rfl, rfl⟩, rfl, rfl, ?_⟩
  cases me <;> rfl

/-- C8: For every sequence of summary rows, `overallChartData` holds exactly
one labeled dataset whose values are the rows' attendance percentages in
arrival order (order preserved, not sorted), and the colour applied to each
row is drawn from the fixed five-colour palette cycled over the row index. -/
theorem C8_overall_chart_series (summary : List SummaryRow) :
    (overallChartData summary).datasets.length = 1 ∧
    ((overallChartData summary).datasets.head?.map (fun ds => ds.label))
      = some "Attendance Percentage" ∧
    ((overallChartData summary).datasets.head?.map (fun ds => ds.data))
      = some (summary.map (·.attendance_percentage)) ∧
    (∀ i, appliedColor (overallChartData summary) i = backgroundPalette.get? (i % 5)) :=
  ⟨rfl, rfl, rfl, fun _ => rfl⟩

/-- C9: In the details view every record is rendered (one row per record);
a record whose `subject_id` matches no known subject is labelled with the
sentinel `Unknown`, and a record with a matching subject is labelled with
that subject's name. -/
theorem C9_unknown_subject_sentinel (subjects : List Subject)
    (records : List AttendanceRecord) (r : AttendanceRecord) :
    (detailRows subjects records).length = records.length ∧
    ((∀ s ∈ subjects, s.id ≠ r.subject_id) →
      detailSubjectLabel subjects r = "Unknown") ∧
    ((∃ s ∈ subjects, s.id = r.subject_id) →
      ∃ s ∈ subjects, s.id = r.subject_id ∧ detailSubjectLabel subjects r = s.name) := by
  refine ⟨by simp [detailRows], ?_, ?_⟩
  · intro hnone
    have hfind : subjects.find? (fun s => s.id == r.subject_id) = none :=
      List.find?_eq_none.mpr (by intro s hs; simpa using hnone s hs)
    simp [detailSubjectLabel, hfind]
  · intro hex
    have hsome : (subjects.find? (fun s => s.id == r.subject_id)).isSome := by
      rw [List.find?_isSome]
      obtain ⟨s, hs, hid⟩ := hex
      exact ⟨s, hs, by simpa using hid⟩
    obtain ⟨s, hfind⟩ := Option.isSome_iff_exists.mp hsome
    refine ⟨s, List.mem_of_find?_eq_some hfind, by simpa using List.find?_some hfind, ?_⟩
    simp [detailSubjectLabel, hfind]

/-- Witness for C9 at a concrete subject list and record. -/
theorem C9_witness :
    (∀ s ∈ sampleSubjects, s.id ≠ sampleUnknownRecord.subject_id) ∧
    detailSubjectLabel sampleSubjects sampleUnknownRecord = "Unknown" :=
  ⟨by decide,
    (C9_unknown_subject_sentinel sampleSubjects [sampleUnknownRecord]
      sampleUnknownRecord).2.1 (by decide)⟩

/-- C10: A record whose status is not exactly `present` is treated as absent
throughout: in the trend aggregation it raises its date bucket's total count
by one without touching the present count, and in the details table it is
rendered `Absent`; every record renders as either `Present` or `Absent`. -/
theorem C10_non_present_treated_absent (m : List (Nat × Bucket))
    (r : AttendanceRecord) (h : r.status ≠ "present") :
    ((lookupDay (addRecord m r) (localDay r.date)).getD ⟨0, 0⟩).total
        = ((lookupDay m (localDay r.date)).getD ⟨0, 0⟩).total + 1 ∧
    ((lookupDay (addRecord m r) (localDay r.date)).getD ⟨0, 0⟩).present
        = ((lookupDay m (localDay r.date)).getD ⟨0, 0⟩).present ∧
    detailStatusLabel r = "Absent" ∧
    (∀ r' : AttendanceRecord,
      detailStatusLabel r' = "Present" ∨ detailStatusLabel r' = "Absent") := by
  have key : lookupDay (addRecord m r) (localDay r.date)
      = some (bump ((lookupDay m (localDay r.date)).getD ⟨0, 0⟩) r.status) := by
    cases hl : lookupDay m (localDay r.date) with
    | none =>
        simp only [addRecord, hl]
        simpa [hl] using lookup_append_single (bump ⟨0, 0⟩ r.status) hl
    | some b =>
        simp only [addRecord, hl]
        rw [lookup_update, hl]
        rfl
  rw [key]
  refine ⟨by simp [bump], by simp [bump, h], by simp [detailStatusLabel, h], ?_⟩
  intro r'
  by_cases hs : r'.status = "present" <;> simp [detailStatusLabel, hs]

/-- Witness for C10 at a concrete record with status `absent`. -/
theorem C10_witness :
    sampleAbsentRecord.status ≠ "present" ∧
    (((lookupDay (addRecord [] sampleAbsentRecord) (localDay sampleAbsentRecord.date)).getD
        ⟨0, 0⟩).total
      = ((lookupDay [] (localDay sampleAbsentRecord.date)).getD ⟨0, 0⟩).total + 1 ∧
    ((lookupDay (addRecord [] sampleAbsentRecord) (localDay sampleAbsentRecord.date)).getD
        ⟨0, 0⟩).present
      = ((lookupDay [] (localDay sampleAbsentRecord.date)).getD ⟨0, 0⟩).present ∧
    detailStatusLabel sampleAbsentRecord = "Absent" ∧
    (∀ r' : AttendanceRecord,
      detailStatusLabel r' = "Present" ∨ detailStatusLabel r' = "Absent")) :=
  ⟨by decide, C10_non_present_treated_absent [] sampleAbsentRecord (by decide)⟩

end AttendanceApp
